import Mathlib

/-!
Shallow embedding of the umongo field/schema codec engine
(src/umongo/abstract.py, src/umongo/fields.py, src/umongo/schema.py).

Python datetimes are modelled as the count of microseconds elapsed on the
proleptic Gregorian timeline used by `datetime`; on that count,
`datetime.replace(microsecond=m)` is `t - t % 1000000 + m` and
`+ timedelta(seconds=1)` is `t + 1000000`, both exactly (the finite
`datetime.max` bound is abstracted away).
-/

/-- Python's built-in `round(x, -3)` on a non-negative integer: round to the
nearest multiple of 1000, ties to the even multiple (banker's rounding).
Used by `_round_to_millisecond` in src/umongo/fields.py. -/
def pyRoundE3 (x : Nat) : Nat :=
  if x % 1000 < 500 then x / 1000 * 1000
  else if 500 < x % 1000 then (x / 1000 + 1) * 1000
  else if x / 1000 % 2 = 0 then x / 1000 * 1000
  else (x / 1000 + 1) * 1000

/-- `_round_to_millisecond` (src/umongo/fields.py lines 97-106):
round the datetime's microsecond component with `round(microsecond, -3)`;
if that gives 1000000, zero the microseconds and add one second. -/
def round_to_millisecond (t : Nat) : Nat :=
  if pyRoundE3 (t % 1000000) = 1000000 then t - t % 1000000 + 1000000
  else t - t % 1000000 + pyRoundE3 (t % 1000000)

/-- A Python `Decimal` in its exact internal representation:
sign, coefficient (an arbitrary-size natural) and decimal exponent. -/
structure PyDecimal where
  sign : Bool
  coeff : Nat
  exp : Int
deriving DecidableEq

/-- Whether a decimal value is exactly representable in the IEEE 754-2008
decimal128 storage format (at most 34 significant decimal digits,
exponent in the decimal128 range).  The bson `Decimal128` constructor
(an external collaborator, spec section 6: the storage decimal type)
traps inexact conversions, so encoding fails instead of losing digits. -/
def decimal128Fits (d : PyDecimal) : Bool :=
  decide (d.coeff < 10 ^ 34) && decide (-6176 ≤ d.exp) && decide (d.exp ≤ 6111)

/-- The 128-bit decimal storage value as stored by MongoDB. -/
structure Decimal128 where
  val : PyDecimal
deriving DecidableEq

/-- `DecimalField._serialize_to_mongo` (src/umongo/fields.py lines 82-83):
`Decimal128(obj)`.  `none` models the collaborator raising on a value that
does not fit the 128-bit decimal format. -/
def DecimalField.serialize_to_mongo (obj : PyDecimal) : Option Decimal128 :=
  if decimal128Fits obj then some ⟨obj⟩ else none

/-- `DecimalField._deserialize_from_mongo` (src/umongo/fields.py lines 85-86):
`value.to_decimal()`. -/
def DecimalField.deserialize_from_mongo (value : Decimal128) : PyDecimal :=
  value.val

/-- A Python `datetime.date`. -/
structure PyDate where
  year : Nat
  month : Nat
  day : Nat
deriving DecidableEq

/-- A Python `datetime.datetime`, in calendar-component form (used for the
`DateField` codec, which performs no arithmetic). -/
structure PyDateTimeRec where
  year : Nat
  month : Nat
  day : Nat
  hour : Nat
  minute : Nat
  second : Nat
  microsecond : Nat
deriving DecidableEq

/-- `DateField._serialize_to_mongo` (src/umongo/fields.py lines 157-158):
`dt.datetime(obj.year, obj.month, obj.day)`, i.e. midnight of that date. -/
def DateField.serialize_to_mongo (obj : PyDate) : PyDateTimeRec :=
  ⟨obj.year, obj.month, obj.day, 0, 0, 0, 0⟩

/-- Python's `datetime.date()`: drop the time component. -/
def PyDateTimeRec.date (v : PyDateTimeRec) : PyDate :=
  ⟨v.year, v.month, v.day⟩

/-- `DateField._deserialize_from_mongo` (src/umongo/fields.py lines 160-161):
`value.date()`. -/
def DateField.deserialize_from_mongo (value : PyDateTimeRec) : PyDate :=
  value.date

/-- `BaseField._serialize_to_mongo` default (src/umongo/abstract.py
lines 193-194): the identity pass-through used by all plain scalar fields. -/
def BaseField.serialize_to_mongo_default {α : Type} (obj : α) : α := obj

/-- `BaseField._deserialize_from_mongo` default (src/umongo/abstract.py
lines 196-197): the identity pass-through used by all plain scalar fields. -/
def BaseField.deserialize_from_mongo_default {α : Type} (value : α) : α := value

/-- A Python value as it may appear inside a record handed to a field's
object-world deserializer: a string, a plain integer, or an already-built
primary-key (`ObjectId`) value. -/
inductive PyVal where
  | str : String → PyVal
  | int : Nat → PyVal
  | oid : Nat → PyVal
deriving DecidableEq

/-- The record key "cls". -/
def kCls : String := "cls"

/-- The record key "id". -/
def kId : String := "id"

/-- The error-map key "value" used by `DictField._required_validate`. -/
def kValue : String := "value"

/-- Lookup in a Python dict modelled as an association list. -/
def dlookupV (d : List (String × PyVal)) (k : String) : Option PyVal :=
  match d with
  | [] => none
  | (k', v) :: rest => if k == k' then some v else dlookupV rest k

/-- Python's `k in d` membership test. -/
def hasKeyD (d : List (String × PyVal)) (k : String) : Bool :=
  (dlookupV d k).isSome

/-- Python's `d[k]` for a key known to be present (defaulted otherwise;
every use below is guarded by a key-presence check). -/
def dgetV (d : List (String × PyVal)) (k : String) : PyVal :=
  (dlookupV d k).getD (PyVal.str (""))

/-- Python's `d.pop(k)` effect on the dict: remove the entry for `k`. -/
def removeKeyD (d : List (String × PyVal)) (k : String) : List (String × PyVal) :=
  d.filter (fun kv => !(kv.1 == k))

/-- The error kinds raised by the fields under verification, mirroring the
distinct `ValidationError` messages of src/umongo/fields.py. -/
inductive VErrKind where
  | notCreated
  | genericRefFields
  | invalidId
  | unknownDocument : String → VErrKind
  | notRegistered : String → VErrKind
  | invalidGenericRef
  | invalidInputType
  | dbrefCollection : String → VErrKind
  | refExpected : String → VErrKind
deriving DecidableEq

/-- The Python exceptions that can cross a deserializer's boundary:
a marshmallow `ValidationError`, or the registry's
`NotRegisteredDocumentError` (which the fields are expected to catch). -/
inductive PyExc where
  | validationError : VErrKind → PyExc
  | notRegisteredDocumentError : String → PyExc
deriving DecidableEq

/-- Python's `str()` of a record value, used only to fill error payloads. -/
def pyValName : PyVal → String
  | PyVal.str s => s
  | PyVal.int n => toString n
  | PyVal.oid n => toString n

/-- Hexadecimal digit test on a character, by code point. -/
def isHexDigitB (c : Char) : Bool :=
  (48 ≤ c.toNat && c.toNat ≤ 57) || (97 ≤ c.toNat && c.toNat ≤ 102) ||
    (65 ≤ c.toNat && c.toNat ≤ 70)

/-- A valid `ObjectId` string: exactly 24 hexadecimal characters. -/
def isValidObjectIdStr (s : String) : Bool :=
  s.length == 24 && s.toList.all isHexDigitB

/-- Value of a hexadecimal digit character. -/
def hexVal (c : Char) : Nat :=
  if c.toNat ≤ 57 then c.toNat - 48
  else if c.toNat ≤ 70 then c.toNat - 55
  else c.toNat - 87

/-- Numeric value of a hexadecimal string. -/
def natOfHex (s : String) : Nat :=
  s.toList.foldl (fun a c => a * 16 + hexVal c) 0

/-- Modelled from the spec: the primary-key type (`bson.ObjectId`, an
external collaborator, spec section 6) is constructible from a string and
fails with a `MalformedIdError`-kind (`ValueError`) failure on invalid
input; `none` models that single failure kind, which
`GenericReferenceField._deserialize` catches as `except ValueError`. -/
def ObjectId.parse : PyVal → Option Nat
  | PyVal.oid n => some n
  | PyVal.str s => if isValidObjectIdStr s then some (natOfHex s) else none
  | _ => none

/-- Modelled from the spec: the document registry (spec section 6) resolves
a document-type name to its concrete type and fails when the name is
unknown; a registry is the list of registered type names, and only string
names can be registered. -/
def retrieve_document (registry : List String) : PyVal → Option String
  | PyVal.str s => if registry.contains s then some s else none
  | _ => none

/-- The registry call as the Python code sees it:
`instance.retrieve_document` raises `NotRegisteredDocumentError` on an
unknown name. -/
def retrieve_documentE (registry : List String) (v : PyVal) : Except PyExc String :=
  match retrieve_document registry v with
  | some c => Except.ok c
  | none => Except.error (PyExc.notRegisteredDocumentError (pyValName v))

/-- A umongo `Reference` data object: (target document type, identifier). -/
structure ReferenceV where
  document_cls : String
  pk : Nat
deriving DecidableEq

/-- `GenericReferenceField._document_cls` (src/umongo/fields.py lines
407-412): try the registry lookup, catching `NotRegisteredDocumentError`
and re-raising it as a `ValidationError` of the unknown-document kind. -/
def GenericReferenceField.document_cls (registry : List String) (v : PyVal) :
    Except PyExc String :=
  match retrieve_documentE registry v with
  | Except.ok c => Except.ok c
  | Except.error (PyExc.notRegisteredDocumentError n) =>
      Except.error (PyExc.validationError (VErrKind.unknownDocument n))
  | Except.error e => Except.error e

/-- Python's `value.keys() == {'cls', 'id'}` on the modelled dict:
both keys present and no other key present. -/
def keysEqClsId (d : List (String × PyVal)) : Bool :=
  hasKeyD d kCls && hasKeyD d kId && d.all (fun kv => kv.1 == kCls || kv.1 == kId)

/-- The possible inputs to `GenericReferenceField._deserialize`:
`None`, an existing `Reference`, a `DocumentImplementation` instance
(carrying its class, primary key and `is_created` flag), a dict, or any
other value. -/
inductive GRefInput where
  | pynone
  | ref : ReferenceV → GRefInput
  | doc : String → Nat → Bool → GRefInput
  | dict : List (String × PyVal) → GRefInput
  | other
deriving DecidableEq

/-- `GenericReferenceField._deserialize` (src/umongo/fields.py lines
419-440), object world.  The dict branch requires the key set to be exactly
the cls/id pair, then parses the identifier (catching the primary-key
constructor's `ValueError`), then resolves the class name through
`_document_cls`. -/
def GenericReferenceField.deserialize (registry : List String) :
    GRefInput → Except PyExc (Option ReferenceV)
  | GRefInput.pynone => Except.ok none
  | GRefInput.ref r => Except.ok (some r)
  | GRefInput.doc cls pk created =>
      if created then Except.ok (some ⟨cls, pk⟩)
      else Except.error (PyExc.validationError VErrKind.notCreated)
  | GRefInput.dict d =>
      if keysEqClsId d then
        match ObjectId.parse (dgetV d kId) with
        | none => Except.error (PyExc.validationError VErrKind.invalidId)
        | some i =>
            match GenericReferenceField.document_cls registry (dgetV d kCls) with
            | Except.error e => Except.error e
            | Except.ok c => Except.ok (some ⟨c, i⟩)
      else Except.error (PyExc.validationError VErrKind.genericRefFields)
  | GRefInput.other => Except.error (PyExc.validationError VErrKind.invalidGenericRef)

/-- Whether a deserialization outcome is a `ValidationError` (as opposed to
success or an uncaught non-validation exception). -/
def isValidationErrorG : Except PyExc (Option ReferenceV) → Bool
  | Except.error (PyExc.validationError _) => true
  | _ => false

/-- A `ReferenceField` instance, with its (lazily resolved) target document
class and that class's collection name. -/
structure RefField where
  document_cls : String
  collection : String
deriving DecidableEq

/-- The possible inputs to `ReferenceField._deserialize`: `None`, a `DBRef`,
an existing `Reference`, a document instance (its class, primary key and
`is_created` flag), or a raw identifier. -/
inductive RefInput where
  | pynone
  | dbref : String → Nat → RefInput
  | ref : ReferenceV → RefInput
  | doc : String → Nat → Bool → RefInput
  | rawId : Nat → RefInput
deriving DecidableEq

/-- `ReferenceField._deserialize` (src/umongo/fields.py lines 359-383).
The final raw-identifier case is modelled from the spec: the
`marshmallow_bonus.Reference` base deserializer (repository code not under
src/) accepts a raw identifier, which is then wrapped into
`reference_cls(document_cls, value)` by the code under src/. -/
def ReferenceField.deserialize (f : RefField) : RefInput → Except PyExc (Option ReferenceV)
  | RefInput.pynone => Except.ok none
  | RefInput.dbref c i =>
      if f.collection == c then Except.ok (some ⟨f.document_cls, i⟩)
      else Except.error (PyExc.validationError (VErrKind.dbrefCollection f.collection))
  | RefInput.ref r =>
      if r.document_cls == f.document_cls then Except.ok (some r)
      else Except.error (PyExc.validationError (VErrKind.refExpected f.document_cls))
  | RefInput.doc cls pk created =>
      if cls == f.document_cls then
        if created then Except.ok (some ⟨f.document_cls, pk⟩)
        else Except.error (PyExc.validationError VErrKind.notCreated)
      else Except.error (PyExc.validationError (VErrKind.refExpected f.document_cls))
  | RefInput.rawId i => Except.ok (some ⟨f.document_cls, i⟩)

/-- `ReferenceField._serialize_to_mongo` (src/umongo/fields.py lines
385-386): emit only the reference's primary key. -/
def ReferenceField.serialize_to_mongo (obj : ReferenceV) : Nat := obj.pk

/-- Concrete malformed record for the C1 witness: it has a cls key but no
id key. -/
def dExC1 : List (String × PyVal) := [(kCls, PyVal.str ("Doc"))]

/-- Concrete record with both required keys plus an extra key, for the C10
witness. -/
def dExC10 : List (String × PyVal) :=
  [(kCls, PyVal.str ("Doc")), (kId, PyVal.oid 1), (("extra"), PyVal.int 7)]

/-- Concrete record missing the id key, for the C10 witness. -/
def eExC10 : List (String × PyVal) := [(kCls, PyVal.str ("Doc"))]

/-- Python's `some_value == name` where `name` is a class's `__name__`
string: true only when the value is that string. -/
def pyValEqStr : PyVal → String → Bool
  | PyVal.str s, o => s == o
  | _, _ => false

/-- An `EmbeddedField` instance: the target embedded-document class name,
the names of the target's declared offspring (`opts.offspring`), and the
instance's embedded-document registry. -/
structure EmbCfg where
  target : String
  offspring : List String
  registry : List String

/-- An embedded-document instance: its concrete class and its field data. -/
structure EmbInstance where
  cls : String
  data : List (String × PyVal)
deriving DecidableEq

/-- The possible inputs to `EmbeddedField._deserialize`: an
embedded-document instance, a dict, or any other value. -/
inductive EmbInput where
  | inst : EmbInstance → EmbInput
  | dict : List (String × PyVal) → EmbInput
  | other
deriving DecidableEq

/-- Python's `isinstance(value, embedded_document_cls)`: the value's class
is the target class or one of its offspring subclasses. -/
def isinstanceEmbedded (cfg : EmbCfg) (c : String) : Bool :=
  c == cfg.target || cfg.offspring.contains c

/-- Modelled from the spec: the embedded-document registry (spec section 6)
resolves an embedded-document name, failing on an unknown name; only string
names can be registered. -/
def retrieve_embedded_document (registry : List String) : PyVal → Option String
  | PyVal.str s => if registry.contains s then some s else none
  | _ => none

/-- `EmbeddedField._deserialize` (src/umongo/fields.py lines 501-520).
The second component of the result is the state of the caller's input after
the call: when the target schema has offspring and the dict carries the
discriminator key, `value.pop('cls')` has removed that entry — before the
offspring-membership check, so also on every failing path. -/
def EmbeddedField.deserialize (cfg : EmbCfg) (v : EmbInput) :
    Except PyExc EmbInstance × EmbInput :=
  match v with
  | EmbInput.inst i =>
      if isinstanceEmbedded cfg i.cls then (Except.ok i, EmbInput.inst i)
      else (Except.error (PyExc.validationError VErrKind.invalidInputType), EmbInput.inst i)
  | EmbInput.other =>
      (Except.error (PyExc.validationError VErrKind.invalidInputType), EmbInput.other)
  | EmbInput.dict d =>
      if !cfg.offspring.isEmpty && hasKeyD d kCls then
        if cfg.offspring.any (fun o => pyValEqStr (dgetV d kCls) o) then
          match retrieve_embedded_document cfg.registry (dgetV d kCls) with
          | some c => (Except.ok ⟨c, removeKeyD d kCls⟩, EmbInput.dict (removeKeyD d kCls))
          | none =>
              (Except.error
                 (PyExc.validationError (VErrKind.notRegistered (pyValName (dgetV d kCls)))),
               EmbInput.dict (removeKeyD d kCls))
        else
          (Except.error
             (PyExc.validationError (VErrKind.unknownDocument (pyValName (dgetV d kCls)))),
           EmbInput.dict (removeKeyD d kCls))
      else (Except.ok ⟨cfg.target, d⟩, EmbInput.dict d)

/-- Concrete embedded field configuration for the C6 and C9 witnesses:
target "Shape" with offspring A and B, both registered. -/
def cfgEx : EmbCfg := ⟨("Shape"), [("A"), ("B")], [("A"), ("B")]⟩

/-- Concrete record carrying discriminator B and B's fields (C6 witness). -/
def dExC6 : List (String × PyVal) := [(kCls, PyVal.str ("B")), (("side"), PyVal.int 3)]

/-- Concrete record carrying the unknown discriminator C (C6 witness). -/
def eExC6 : List (String × PyVal) := [(kCls, PyVal.str ("C"))]

/-- Concrete record carrying an unknown discriminator (C9 witness: the
caller's dict is mutated even though deserialization fails). -/
def dExC9 : List (String × PyVal) := [(kCls, PyVal.str ("Zed")), (("x"), PyVal.int 1)]

/-- A marshmallow `ValidationError`'s `messages` payload: a list of
messages, a string-keyed map, or an index-keyed map. -/
inductive ErrVal where
  | msgs : List String → ErrVal
  | kmap : List (String × ErrVal) → ErrVal
  | imap : List (Nat × ErrVal) → ErrVal

/-- The error map accumulated by the loop of
`DictField._required_validate` (src/umongo/fields.py lines 241-246):
`errors[key]["value"] = exc.messages` for every failing entry, in order. -/
def collectKey (rv : PyVal → Option ErrVal) :
    List (String × PyVal) → List (String × ErrVal)
  | [] => []
  | (k, v) :: rest =>
      match rv v with
      | some e => (k, ErrVal.kmap [(kValue, e)]) :: collectKey rv rest
      | none => collectKey rv rest

/-- The error map accumulated by the loop of
`ListField._required_validate` (src/umongo/fields.py lines 307-312):
`errors[i] = exc.messages` for every failing index, in enumeration order. -/
def collectIdx (rv : PyVal → Option ErrVal) : Nat → List PyVal → List (Nat × ErrVal)
  | _, [] => []
  | i, v :: rest =>
      match rv v with
      | some e => (i, e) :: collectIdx rv (i + 1) rest
      | none => collectIdx rv (i + 1) rest

/-- `DictField._required_validate` (src/umongo/fields.py lines 237-248):
return silently when the value is missing or the value field lacks the
required-validate capability; otherwise validate every entry's value,
collect per-key failures, and raise once with the key-keyed map. -/
def DictField.required_validate (value_field : Option (PyVal → Option ErrVal))
    (value : Option (List (String × PyVal))) : Option ErrVal :=
  match value, value_field with
  | none, _ => none
  | some _, none => none
  | some entries, some rv =>
      if (collectKey rv entries).isEmpty then none
      else some (ErrVal.kmap (collectKey rv entries))

/-- `ListField._required_validate` (src/umongo/fields.py lines 303-314):
same shape as the dict variant, with an index-keyed error map. -/
def ListField.required_validate (inner : Option (PyVal → Option ErrVal))
    (value : Option (List PyVal)) : Option ErrVal :=
  match value, inner with
  | none, _ => none
  | some _, none => none
  | some xs, some rv =>
      if (collectIdx rv 0 xs).isEmpty then none
      else some (ErrVal.imap (collectIdx rv 0 xs))

/-- A concrete inner messages payload for the C8 witness. -/
def errEx : ErrVal := ErrVal.msgs [("missing required value")]

/-- A concrete inner required-validator for the C8 witness: entries holding
the integer 0 fail. -/
def requireNonZero : PyVal → Option ErrVal := fun v =>
  match v with
  | PyVal.int 0 => some errEx
  | _ => none

/-- The map key "a" used in the C8 witness. -/
def kA : String := "a"

/-- Concrete map with two failing entries out of three (C8 witness). -/
def entriesEx : List (String × PyVal) :=
  [(kA, PyVal.int 0), (("b"), PyVal.int 1), (("c"), PyVal.int 0)]

/-- Concrete list with two failing elements out of three (C8 witness). -/
def xsEx : List PyVal := [PyVal.int 0, PyVal.int 3, PyVal.int 0]

theorem pyRoundE3_mod (x : Nat) : pyRoundE3 x % 1000 = 0 := by
  unfold pyRoundE3
  split_ifs <;> omega

theorem pyRoundE3_le (x : Nat) : pyRoundE3 x ≤ x + 500 ∧ x ≤ pyRoundE3 x + 500 := by
  unfold pyRoundE3
  split_ifs <;> constructor <;> omega

theorem pyRoundE3_fixed (x : Nat) (h : x % 1000 = 0) : pyRoundE3 x = x := by
  unfold pyRoundE3
  split_ifs <;> omega

theorem round_to_millisecond_micro (t : Nat) :
    round_to_millisecond t % 1000000 % 1000 = 0 := by
  have h1 := pyRoundE3_mod (t % 1000000)
  have h2 := (pyRoundE3_le (t % 1000000)).1
  unfold round_to_millisecond
  split_ifs with h <;> omega

theorem round_to_millisecond_fixed (t : Nat) (h : t % 1000000 % 1000 = 0) :
    round_to_millisecond t = t := by
  have hf : pyRoundE3 (t % 1000000) = t % 1000000 := pyRoundE3_fixed _ h
  unfold round_to_millisecond
  rw [hf]
  split_ifs with h1 <;> omega

/-- C4: applying the millisecond rounding twice equals applying it once, and
rounding any datetime whose microsecond component is 999700 yields the next
whole second (with microsecond component zero). -/
theorem claim_C4_round_idempotent (t u : Nat) (hu : u % 1000000 = 999700) :
    round_to_millisecond (round_to_millisecond t) = round_to_millisecond t ∧
    round_to_millisecond u = (u / 1000000 + 1) * 1000000 ∧
    round_to_millisecond u % 1000000 = 0 := by
  have hp : pyRoundE3 999700 = 1000000 := by decide
  have h2 : round_to_millisecond u = (u / 1000000 + 1) * 1000000 := by
    unfold round_to_millisecond
    rw [hu, hp, ite_self]
    omega
  exact ⟨round_to_millisecond_fixed _ (round_to_millisecond_micro t), h2,
    by rw [h2]; omega⟩

/-- Witness for C4 at the concrete datetimes 123456 and 1999700 (the latter
has microsecond component 999700). -/
theorem claim_C4_witness :
    (1999700 % 1000000 = 999700) ∧
    (round_to_millisecond (round_to_millisecond 123456) = round_to_millisecond 123456 ∧
     round_to_millisecond 1999700 = (1999700 / 1000000 + 1) * 1000000 ∧
     round_to_millisecond 1999700 % 1000000 = 0) :=
  ⟨by decide, claim_C4_round_idempotent 123456 1999700 (by decide)⟩

/-- C5: the rounding used by the date/time fields takes the microsecond
component to a nearest multiple of 1000 (the result is a multiple of 1000
within 500 microseconds of the input), and when the rounding carries to
1000000 microseconds the result zeroes the microseconds of the input and
adds one second. -/
theorem claim_C5_round_rule (t u : Nat) (hu : pyRoundE3 (u % 1000000) = 1000000) :
    round_to_millisecond t % 1000 = 0 ∧
    round_to_millisecond t ≤ t + 500 ∧ t ≤ round_to_millisecond t + 500 ∧
    round_to_millisecond u = u - u % 1000000 + 1000000 ∧
    round_to_millisecond u % 1000000 = 0 := by
  have h1 := round_to_millisecond_micro t
  have h2 := (pyRoundE3_le (t % 1000000)).1
  have h3 := (pyRoundE3_le (t % 1000000)).2
  have hcarry : round_to_millisecond u = u - u % 1000000 + 1000000 := by
    unfold round_to_millisecond
    rw [hu, ite_self]
  refine ⟨by omega, ?_, ?_, hcarry, by rw [hcarry]; omega⟩
  · unfold round_to_millisecond
    split_ifs with h <;> omega
  · unfold round_to_millisecond
    split_ifs with h <;> omega

/-- Witness for C5 at the concrete datetimes 555 and 999700 (the latter's
microsecond component rounds up to 1000000, i.e. carries). -/
theorem claim_C5_witness :
    (pyRoundE3 (999700 % 1000000) = 1000000) ∧
    (round_to_millisecond 555 % 1000 = 0 ∧
     round_to_millisecond 555 ≤ 555 + 500 ∧ 555 ≤ round_to_millisecond 555 + 500 ∧
     round_to_millisecond 999700 = 999700 - 999700 % 1000000 + 1000000 ∧
     round_to_millisecond 999700 % 1000000 = 0) :=
  ⟨by decide, claim_C5_round_rule 555 999700 (by decide)⟩

/-- C3: storage round trip for scalar fields: the default pass-through codec
is the identity, the decimal codec loses no precision (decoding any value
the 128-bit encoder accepts returns the original decimal exactly), and the
date codec (encode to midnight datetime, decode by dropping the time
component) returns the original date. -/
theorem claim_C3_scalar_roundtrip (α : Type) (x : α) (d : PyDecimal) (e : Decimal128)
    (h : DecimalField.serialize_to_mongo d = some e) (dte : PyDate) :
    BaseField.deserialize_from_mongo_default (BaseField.serialize_to_mongo_default x) = x ∧
    DecimalField.deserialize_from_mongo e = d ∧
    DateField.deserialize_from_mongo (DateField.serialize_to_mongo dte) = dte := by
  refine ⟨rfl, ?_, rfl⟩
  unfold DecimalField.serialize_to_mongo at h
  split at h
  · cases h
    rfl
  · cases h

/-- Witness for C3 at the decimal 1234.56 (sign +, coefficient 123456,
exponent -2), the integer 5 and the date 2020-01-02. -/
theorem claim_C3_witness :
    (DecimalField.serialize_to_mongo ⟨false, 123456, -2⟩ = some ⟨⟨false, 123456, -2⟩⟩) ∧
    (BaseField.deserialize_from_mongo_default (BaseField.serialize_to_mongo_default (5 : Nat)) = 5 ∧
     DecimalField.deserialize_from_mongo ⟨⟨false, 123456, -2⟩⟩ = ⟨false, 123456, -2⟩ ∧
     DateField.deserialize_from_mongo (DateField.serialize_to_mongo ⟨2020, 1, 2⟩) = ⟨2020, 1, 2⟩) :=
  ⟨by decide, claim_C3_scalar_roundtrip Nat 5 ⟨false, 123456, -2⟩ ⟨⟨false, 123456, -2⟩⟩
    (by decide) ⟨2020, 1, 2⟩⟩

theorem mem_of_dlookupV (d : List (String × PyVal)) (k : String) (v : PyVal)
    (h : dlookupV d k = some v) : (k, v) ∈ d := by
  induction d with
  | nil => simp [dlookupV] at h
  | cons hd tl ih =>
      obtain ⟨k', v'⟩ := hd
      simp only [dlookupV] at h
      by_cases hk : (k == k') = true
      · rw [if_pos hk] at h
        cases h
        have : k = k' := eq_of_beq hk
        subst this
        exact List.mem_cons_self _ _
      · rw [if_neg hk] at h
        exact List.mem_cons_of_mem _ (ih h)

/-- C7: a single-type reference field bound to document type `T` turns a raw
identifier `x` into `Reference(T, x)`; `serialize_to_mongo` of that
reference emits exactly `x`; and deserializing a not-yet-persisted instance
of `T` fails with the `NotCreatedError`-kind `ValidationError`. -/
theorem claim_C7_reference_field (f : RefField) (x pk : Nat) :
    ReferenceField.deserialize f (RefInput.rawId x) = Except.ok (some ⟨f.document_cls, x⟩) ∧
    ReferenceField.serialize_to_mongo ⟨f.document_cls, x⟩ = x ∧
    ReferenceField.deserialize f (RefInput.doc f.document_cls pk false)
      = Except.error (PyExc.validationError VErrKind.notCreated) := by
  refine ⟨rfl, rfl, ?_⟩
  simp [ReferenceField.deserialize]

/-- C1: the generic reference field's object-world deserializer, given a
record that lacks the cls key, lacks the id key, has an unparsable id, or
names an unregistered document class, fails with a `ValidationError` (and
not with success or an uncaught exception). -/
theorem claim_C1_generic_reference_malformed (registry : List String)
    (d : List (String × PyVal))
    (h : hasKeyD d kCls = false ∨ hasKeyD d kId = false
       ∨ ObjectId.parse (dgetV d kId) = none
       ∨ retrieve_document registry (dgetV d kCls) = none) :
    isValidationErrorG (GenericReferenceField.deserialize registry (GRefInput.dict d))
      = true := by
  by_cases hk : keysEqClsId d = true
  · have hck : hasKeyD d kCls = true ∧ hasKeyD d kId = true := by
      unfold keysEqClsId at hk
      simp only [Bool.and_eq_true] at hk
      exact ⟨hk.1.1, hk.1.2⟩
    simp only [GenericReferenceField.deserialize, if_pos hk]
    rcases h with h | h | h | h
    · rw [hck.1] at h
      cases h
    · rw [hck.2] at h
      cases h
    · rw [h]
      rfl
    · cases hp : ObjectId.parse (dgetV d kId) with
      | none => rfl
      | some i =>
          unfold GenericReferenceField.document_cls retrieve_documentE
          rw [h]
          rfl
  · simp only [GenericReferenceField.deserialize, if_neg hk]
    rfl

/-- Witness for C1: the record with only a cls entry (no id key) is rejected
with a `ValidationError` by the generic reference deserializer. -/
theorem claim_C1_witness :
    (hasKeyD dExC1 kId = false) ∧
    isValidationErrorG (GenericReferenceField.deserialize [] (GRefInput.dict dExC1)) = true :=
  ⟨by decide, claim_C1_generic_reference_malformed [] dExC1 (Or.inr (Or.inl (by decide)))⟩

/-- C10: the generic reference field's dict deserialization requires the key
set to be exactly the cls/id pair: a record with both keys plus an extra
key is rejected, with the very same `ValidationError` as a record missing
the id key. -/
theorem claim_C10_exact_keys (registry : List String) (d e : List (String × PyVal))
    (x : String) (v : PyVal)
    (hx : dlookupV d x = some v) (hx1 : x ≠ kCls) (hx2 : x ≠ kId)
    (he : hasKeyD e kId = false) :
    GenericReferenceField.deserialize registry (GRefInput.dict d)
      = Except.error (PyExc.validationError VErrKind.genericRefFields) ∧
    GenericReferenceField.deserialize registry (GRefInput.dict e)
      = GenericReferenceField.deserialize registry (GRefInput.dict d) := by
  have hmem := mem_of_dlookupV d x v hx
  have hall : d.all (fun kv => kv.1 == kCls || kv.1 == kId) = false := by
    apply Bool.eq_false_iff.mpr
    intro hAll
    have hp := List.all_eq_true.mp hAll _ hmem
    simp only [Bool.or_eq_true, beq_iff_eq] at hp
    rcases hp with h' | h'
    · exact hx1 h'
    · exact hx2 h'
  have hd : keysEqClsId d = false := by
    unfold keysEqClsId
    rw [hall]
    simp
  have hee : keysEqClsId e = false := by
    unfold keysEqClsId
    rw [he]
    simp
  constructor
  · simp only [GenericReferenceField.deserialize, hd]
    rfl
  · simp only [GenericReferenceField.deserialize, hd, hee]
    rfl

/-- Witness for C10: the record with cls, id and an extra key is rejected
with exactly the same error as the record missing the id key. -/
theorem claim_C10_witness :
    (dlookupV dExC10 ("extra") = some (PyVal.int 7) ∧ hasKeyD eExC10 kId = false) ∧
    (GenericReferenceField.deserialize [] (GRefInput.dict dExC10)
        = Except.error (PyExc.validationError VErrKind.genericRefFields) ∧
     GenericReferenceField.deserialize [] (GRefInput.dict eExC10)
        = GenericReferenceField.deserialize [] (GRefInput.dict dExC10)) :=
  ⟨⟨by decide, by decide⟩,
    claim_C10_exact_keys [] dExC10 eExC10 ("extra") (PyVal.int 7) (by decide) (by decide)
      (by decide) (by decide)⟩

theorem any_beq_contains (l : List String) (a : String) :
    (l.any fun o => a == o) = l.contains a := by
  induction l with
  | nil => rfl
  | cons x xs ih => rw [List.any_cons, ih, List.contains_cons]

theorem isEmpty_false_of_contains (l : List String) (a : String)
    (h : l.contains a = true) : l.isEmpty = false := by
  cases l with
  | nil => cases h
  | cons x xs => rfl

/-- C6: an embedded field whose target schema declares offspring: a record
whose discriminator names offspring B (together with B's fields) decodes to
an instance of exactly B, and a record whose discriminator names a type
outside the offspring set fails with the unknown-document
`ValidationError`. -/
theorem claim_C6_embedded_polymorphic (cfg : EmbCfg) (d e : List (String × PyVal))
    (B C : String)
    (hB1 : cfg.offspring.contains B = true)
    (hB2 : cfg.registry.contains B = true)
    (hd : dlookupV d kCls = some (PyVal.str B))
    (hC : cfg.offspring.contains C = false)
    (he : dlookupV e kCls = some (PyVal.str C)) :
    (EmbeddedField.deserialize cfg (EmbInput.dict d)).1
        = Except.ok ⟨B, removeKeyD d kCls⟩ ∧
    (EmbeddedField.deserialize cfg (EmbInput.dict e)).1
        = Except.error (PyExc.validationError (VErrKind.unknownDocument C)) := by
  have hoe : cfg.offspring.isEmpty = false := isEmpty_false_of_contains _ _ hB1
  have hkd : hasKeyD d kCls = true := by
    unfold hasKeyD
    rw [hd]
    rfl
  have hke : hasKeyD e kCls = true := by
    unfold hasKeyD
    rw [he]
    rfl
  have hgd : dgetV d kCls = PyVal.str B := by
    unfold dgetV
    rw [hd]
    rfl
  have hge : dgetV e kCls = PyVal.str C := by
    unfold dgetV
    rw [he]
    rfl
  have hanyd : (cfg.offspring.any fun o => pyValEqStr (PyVal.str B) o) = true := by
    have hfun : (fun o => pyValEqStr (PyVal.str B) o) = (fun o => B == o) := rfl
    rw [hfun, any_beq_contains, hB1]
  have hanye : (cfg.offspring.any fun o => pyValEqStr (PyVal.str C) o) = false := by
    have hfun : (fun o => pyValEqStr (PyVal.str C) o) = (fun o => C == o) := rfl
    rw [hfun, any_beq_contains, hC]
  constructor
  · simp only [EmbeddedField.deserialize, hoe, hkd, hgd, hanyd, Bool.not_false,
      Bool.and_self, if_true, retrieve_embedded_document, hB2]
  · simp only [EmbeddedField.deserialize, hoe, hke, hge, hanye, Bool.not_false,
      Bool.and_self, if_true]
    rfl

/-- Witness for C6 at the concrete configuration with offspring A and B and
the records with discriminators B and C. -/
theorem claim_C6_witness :
    (cfgEx.offspring.contains ("B") = true ∧ cfgEx.registry.contains ("B") = true ∧
     dlookupV dExC6 kCls = some (PyVal.str ("B")) ∧
     cfgEx.offspring.contains ("C") = false ∧
     dlookupV eExC6 kCls = some (PyVal.str ("C"))) ∧
    ((EmbeddedField.deserialize cfgEx (EmbInput.dict dExC6)).1
        = Except.ok ⟨("B"), removeKeyD dExC6 kCls⟩ ∧
     (EmbeddedField.deserialize cfgEx (EmbInput.dict eExC6)).1
        = Except.error (PyExc.validationError (VErrKind.unknownDocument ("C")))) :=
  ⟨⟨by decide, by decide, by decide, by decide, by decide⟩,
    claim_C6_embedded_polymorphic cfgEx dExC6 eExC6 ("B") ("C") (by decide) (by decide)
      (by decide) (by decide) (by decide)⟩

/-- C9: when the embedded field deserializes a dict whose target schema has
a non-empty offspring set and the dict carries the discriminator key, the
caller's dict has its cls entry removed as a side effect — on every path,
including the failing ones. -/
theorem claim_C9_embedded_pops_cls (cfg : EmbCfg) (d : List (String × PyVal))
    (h1 : cfg.offspring.isEmpty = false) (h2 : hasKeyD d kCls = true) :
    (EmbeddedField.deserialize cfg (EmbInput.dict d)).2
      = EmbInput.dict (removeKeyD d kCls) := by
  simp only [EmbeddedField.deserialize, h1, h2, Bool.not_false, Bool.and_self, if_true]
  split
  · split <;> rfl
  · rfl

/-- Witness for C9: deserializing the record with the unknown discriminator
Zed fails with the unknown-document error, and the caller's dict has
nevertheless lost its cls entry. -/
theorem claim_C9_witness :
    (cfgEx.offspring.isEmpty = false ∧ hasKeyD dExC9 kCls = true ∧
     (EmbeddedField.deserialize cfgEx (EmbInput.dict dExC9)).1
        = Except.error (PyExc.validationError (VErrKind.unknownDocument ("Zed")))) ∧
    (EmbeddedField.deserialize cfgEx (EmbInput.dict dExC9)).2
        = EmbInput.dict (removeKeyD dExC9 kCls) :=
  ⟨⟨by decide, by decide, rfl⟩, claim_C9_embedded_pops_cls cfgEx dExC9 (by decide) (by decide)⟩

theorem collectKey_mem (rv : PyVal → Option ErrVal) (entries : List (String × PyVal))
    (k : String) (v : PyVal) (e : ErrVal) (hm : (k, v) ∈ entries) (hr : rv v = some e) :
    (k, ErrVal.kmap [(kValue, e)]) ∈ collectKey rv entries := by
  induction entries with
  | nil => cases hm
  | cons hd tl ih =>
      obtain ⟨k', v'⟩ := hd
      rcases List.mem_cons.mp hm with h | h
      · injection h with h1 h2
        subst h1
        subst h2
        simp only [collectKey, hr]
        exact List.mem_cons_self _ _
      · simp only [collectKey]
        cases hrv : rv v' with
        | some e' => exact List.mem_cons_of_mem _ (ih h)
        | none => exact ih h

theorem collectIdx_mem (rv : PyVal → Option ErrVal) (xs : List PyVal) :
    ∀ (s i : Nat) (hi : i < xs.length) (e : ErrVal),
      rv (xs.get ⟨i, hi⟩) = some e → (s + i, e) ∈ collectIdx rv s xs := by
  induction xs with
  | nil =>
      intro s i hi
      cases hi
  | cons x tl ih =>
      intro s i hi e hr
      cases i with
      | zero =>
          simp only [List.get] at hr
          simp only [collectIdx, hr]
          exact List.mem_cons_self _ _
      | succ j =>
          simp only [List.get] at hr
          have hj : j < tl.length := by
            simp only [List.length_cons] at hi
            omega
          have hmem := ih (s + 1) j hj e hr
          have hsum : s + 1 + j = s + (j + 1) := by omega
          rw [hsum] at hmem
          simp only [collectIdx]
          cases hrv : rv x with
          | some e' => exact List.mem_cons_of_mem _ hmem
          | none => exact hmem

/-- C8: required-field validation over a map or list container whose inner
field exposes the capability runs over every element, collects every
failure into a single key-keyed (map) or index-keyed (list) error map —
each failing key or index is present in it — and raises exactly once with
that map. -/
theorem claim_C8_container_required (rv : PyVal → Option ErrVal)
    (entries : List (String × PyVal)) (xs : List PyVal)
    (k : String) (v : PyVal) (e : ErrVal) (i : Nat) (hi : i < xs.length) (ei : ErrVal)
    (hkv : (k, v) ∈ entries) (hrv : rv v = some e)
    (hxi : rv (xs.get ⟨i, hi⟩) = some ei)
    (hne : (collectKey rv entries).isEmpty = false)
    (hnl : (collectIdx rv 0 xs).isEmpty = false) :
    (DictField.required_validate (some rv) (some entries)
        = some (ErrVal.kmap (collectKey rv entries)) ∧
     (k, ErrVal.kmap [(kValue, e)]) ∈ collectKey rv entries) ∧
    (ListField.required_validate (some rv) (some xs)
        = some (ErrVal.imap (collectIdx rv 0 xs)) ∧
     (i, ei) ∈ collectIdx rv 0 xs) := by
  refine ⟨⟨?_, collectKey_mem rv entries k v e hkv hrv⟩, ?_, ?_⟩
  · simp only [DictField.required_validate, hne]
    rfl
  · simp only [ListField.required_validate, hnl]
    rfl
  · have hmem := collectIdx_mem rv xs 0 i hi ei hxi
    simpa using hmem

/-- Witness for C8 at a concrete map and list each holding two failing
elements, with a concrete inner required-validator. -/
theorem claim_C8_witness :
    ((kA, PyVal.int 0) ∈ entriesEx ∧ requireNonZero (PyVal.int 0) = some errEx ∧
     (0 : Nat) < xsEx.length ∧
     (collectKey requireNonZero entriesEx).isEmpty = false ∧
     (collectIdx requireNonZero 0 xsEx).isEmpty = false) ∧
    ((DictField.required_validate (some requireNonZero) (some entriesEx)
        = some (ErrVal.kmap (collectKey requireNonZero entriesEx)) ∧
      (kA, ErrVal.kmap [(kValue, errEx)]) ∈ collectKey requireNonZero entriesEx) ∧
     (ListField.required_validate (some requireNonZero) (some xsEx)
        = some (ErrVal.imap (collectIdx requireNonZero 0 xsEx)) ∧
      (0, errEx) ∈ collectIdx requireNonZero 0 xsEx)) :=
  ⟨⟨by decide, rfl, by decide, rfl, rfl⟩,
    claim_C8_container_required requireNonZero entriesEx xsEx kA (PyVal.int 0) errEx 0
      (by decide) errEx (by decide) rfl rfl rfl rfl⟩

